import Mathlib

/-!
Shallow embedding of `nvas3d/main.py`, the training launcher of the
ml-nvas3d repository, together with theorems checking the natural-language
specification of that file.

The launcher parses CLI arguments (`--config`, `--exp`, `--gpu`), validates
them (`validate_args`), and then either calls `main(0, args)` once
(single-device mode, `--gpu` supplied) or spawns `main` in one process per
visible CUDA device (`mp.spawn`, `--gpu` omitted).  `main` loads the YAML
config, bootstraps the experiment directory, and wires the external
collaborators (`SSAVDataLoader`, `NVASNet`, `Trainer`) together.

The embedding models:
* the filesystem as an association list of file contents plus a list of
  existing directories (`FS`);
* the runtime environment (`torch.cuda.device_count()` and the external
  YAML parser `yaml.safe_load`) as `Env`;
* Python exceptions as the inductive `PyError` with `Except`;
* the side effects of `main` as an explicit event trace (`Event`), since
  the collaborators are black boxes whose construction order is what the
  spec talks about.
-/

/-- Parsed command-line arguments, mirroring the `argparse` namespace built
in `__main__`: `--config` (string path), `--exp` (string name), `--gpu`
(optional integer, `default=None`). -/
structure Args where
  config : String
  exp : String
  gpu : Option Int
deriving DecidableEq, Repr

/-- The filesystem state visible to the launcher: files with their contents
and the set of existing directories. -/
structure FS where
  files : List (String × String)
  dirs : List String
deriving DecidableEq, Repr

/-- `os.path.isfile`: the path names an existing file. -/
def isfile (fs : FS) (p : String) : Bool :=
  (fs.files.lookup p).isSome

/-- `os.path.isdir`: the path names an existing directory. -/
def isdir (fs : FS) (p : String) : Bool :=
  fs.dirs.contains p

/-- Python exceptions that the launcher can raise or propagate. -/
inductive PyError where
  | fileNotFoundError (msg : String)
  | valueError (msg : String)
  | fileExistsError (msg : String)
  | yamlError (msg : String)
deriving DecidableEq, Repr

/-- The YAML config keys that `main` reads:
`save_dir`, `use_visual`, `use_deconv`, `data_loader` (with
`num_receivers`), `training`.  Only `save_dir` influences control flow in
this file; the others are passed through to the collaborators. -/
structure Config where
  save_dir : String
  use_visual : Bool
  use_deconv : Bool
  num_receivers : Nat
deriving DecidableEq, Repr

/-- The runtime environment: the number of visible CUDA devices
(`torch.cuda.device_count()`) and the external YAML parser
(`yaml.safe_load`), which either yields a parsed config or raises. -/
structure Env where
  deviceCount : Nat
  parseYaml : String → Except String Config

/-- `os.path.join(a, b)` for the POSIX paths appearing here: an absolute
second component replaces the first, otherwise the components are joined
with a single separator. -/
def osPathJoin (a b : String) : String :=
  if b.startsWith "/" then b
  else if a = "" then b
  else if a.endsWith "/" then a ++ b
  else a ++ "/" ++ b

/-- `os.makedirs(p, exist_ok)`: creates the directory, raising
`FileExistsError` when it exists and `exist_ok` is false. -/
def makedirs (fs : FS) (p : String) (exist_ok : Bool) : Except PyError FS :=
  if isdir fs p then
    if exist_ok then .ok fs
    else .error (.fileExistsError p)
  else .ok { fs with dirs := p :: fs.dirs }

/-- Writing a file: overwrites any previous entry at the same path. -/
def writeFile (fs : FS) (p c : String) : FS :=
  { fs with files := (p, c) :: fs.files.filter (fun kv => kv.1 != p) }

/-- `shutil.copy(src, dst)`: reads `src` and writes its contents to `dst`,
overwriting `dst` when it exists. -/
def shutilCopy (fs : FS) (src dst : String) : Except PyError FS :=
  match fs.files.lookup src with
  | none => .error (.fileNotFoundError src)
  | some c => .ok (writeFile fs dst c)

/-- `validate_args(args)` from `main.py`:
raises `FileNotFoundError` when `os.path.isfile(args.config)` is false, and
`ValueError` when `args.gpu is not None` and
`args.gpu < 0 or args.gpu >= torch.cuda.device_count()`. -/
def validate_args (fs : FS) (env : Env) (args : Args) : Except PyError Unit :=
  if isfile fs args.config = false then
    .error (.fileNotFoundError ("Configuration file not found: " ++ args.config))
  else
    match args.gpu with
    | some g =>
      if g < 0 ∨ (env.deviceCount : Int) ≤ g then
        .error (.valueError ("Invalid GPU ID " ++ toString g ++
          ". Must be between 0 and " ++ toString ((env.deviceCount : Int) - 1) ++ "."))
      else .ok ()
    | none => .ok ()

/-- Whether an `Except` result is a raised `FileNotFoundError`. -/
def raisesFileNotFound {α : Type} : Except PyError α → Bool
  | .error (.fileNotFoundError _) => true
  | _ => false

/-- Whether an `Except` result is a raised `ValueError`. -/
def raisesValueError {α : Type} : Except PyError α → Bool
  | .error (.valueError _) => true
  | _ => false

/-- The observable actions `main` performs, in program order.  The external
collaborators are black boxes, so constructing or invoking one is a single
event. -/
inductive Event where
  | initProcessGroup (backend : String) (init_method : String) (rank : Nat) (world_size : Nat)
  | setDevice (gpu : Int)
  | openConfig (path : String)
  | makedirsEv (path : String)
  | copyEv (src : String) (dst : String)
  | logInfo (msg : String)
  | dataLoaderInit (use_visual : Bool) (use_deconv : Bool) (is_ddp : Bool)
  | modelInit (num_receivers : Nat) (use_visual : Bool)
  | ddpWrap (device_ids : List Nat)
  | trainerInit (save_dir : String)
  | trainCall
  | destroyProcessGroup
deriving DecidableEq, Repr

/-- `main(local_rank, args)` from `main.py`, as a function from the
environment and filesystem to either a propagated exception or the final
filesystem together with the trace of actions taken, in program order:

* DDP setup (`setup_distributed_training`, with
  `world_size = torch.cuda.device_count()`, backend `nccl`, address
  `tcp://localhost:12355`, `rank = local_rank`) when `args.gpu is None`,
  otherwise `torch.cuda.set_device(args.gpu)`;
* open and parse the config file (`yaml.safe_load`);
* `save_dir = os.path.join(config['save_dir'], f'{args.exp}')`,
  `os.makedirs(save_dir, exist_ok=True)`,
  `shutil.copy(args.config, f'{save_dir}/config.yaml')`;
* two `logging.info` calls;
* construct `SSAVDataLoader`, `NVASNet` (wrapped in
  `DistributedDataParallel` when in DDP mode), `Trainer`; run
  `trainer.train()`;
* `dist.destroy_process_group()` in DDP mode. -/
def pyMain (env : Env) (fs : FS) (local_rank : Nat) (args : Args) :
    Except PyError (FS × List Event) :=
  let is_ddp := args.gpu.isNone
  let devEvents : List Event :=
    match args.gpu with
    | none => [.initProcessGroup "nccl" "tcp://localhost:12355" local_rank env.deviceCount]
    | some g => [.setDevice g]
  match fs.files.lookup args.config with
  | none => .error (.fileNotFoundError args.config)
  | some content =>
    match env.parseYaml content with
    | .error m => .error (.yamlError m)
    | .ok config =>
      let save_dir := osPathJoin config.save_dir args.exp
      match makedirs fs save_dir true with
      | .error e => .error e
      | .ok fs1 =>
        match shutilCopy fs1 args.config (save_dir ++ "/config.yaml") with
        | .error e => .error e
        | .ok fs2 =>
          .ok (fs2,
            devEvents ++
            [.openConfig args.config,
             .makedirsEv save_dir,
             .copyEv args.config (save_dir ++ "/config.yaml"),
             .logInfo ("Configuration file loaded from " ++ args.config),
             .logInfo ("Experiment directory created at " ++ save_dir),
             .dataLoaderInit config.use_visual config.use_deconv is_ddp,
             .modelInit config.num_receivers config.use_visual] ++
            (if is_ddp then [.ddpWrap [local_rank]] else []) ++
            [.trainerInit save_dir, .trainCall] ++
            (if is_ddp then [.destroyProcessGroup] else []))

/-- Outcome of the `__main__` block after argument parsing: either
validation failed (the exception is logged via `logging.error` and the
process exits with the given status), or the single-device path ran
`main(0, args)`, or the multi-device path spawned `main` in `nprocs`
processes via `mp.spawn`. -/
inductive EntryResult where
  | validationFailed (logged : PyError) (exitCode : Nat) (fsAfter : FS)
  | singleDevice (run : Except PyError (FS × List Event))
  | multiDevice (nprocs : Nat) (runs : List (Except PyError (FS × List Event)))

/-- The `__main__` dispatch of `main.py`: `validate_args` inside
`try/except (FileNotFoundError, ValueError)` with `logging.error(e)` and
`exit(1)` on failure; then `main(0, args)` when `args.gpu is not None`,
else `mp.spawn(main, args=(args,), nprocs=torch.cuda.device_count())`,
each spawned process receiving its spawn index as `local_rank`. -/
def entry_point (env : Env) (fs : FS) (args : Args) : EntryResult :=
  match validate_args fs env args with
  | .error e => .validationFailed e 1 fs
  | .ok _ =>
    match args.gpu with
    | some _ => .singleDevice (pyMain env fs 0 args)
    | none =>
      .multiDevice env.deviceCount
        ((List.range env.deviceCount).map (fun i => pyMain env fs i args))

/-! ### Helper lemmas about the filesystem primitives -/

/-- The result of `os.makedirs(p, exist_ok=True)`: the filesystem with the
directory present. -/
def mkdirIfAbsent (fs : FS) (p : String) : FS :=
  if isdir fs p then fs else { fs with dirs := p :: fs.dirs }

theorem makedirs_true_ok (fs : FS) (p : String) :
    makedirs fs p true = .ok (mkdirIfAbsent fs p) := by
  unfold makedirs mkdirIfAbsent
  split <;> simp

theorem mkdirIfAbsent_files (fs : FS) (p : String) :
    (mkdirIfAbsent fs p).files = fs.files := by
  unfold mkdirIfAbsent
  split <;> rfl

theorem isdir_mkdirIfAbsent_self (fs : FS) (p : String) :
    isdir (mkdirIfAbsent fs p) p = true := by
  unfold mkdirIfAbsent
  split
  · assumption
  · simp [isdir]

theorem writeFile_dirs (fs : FS) (p c : String) :
    (writeFile fs p c).dirs = fs.dirs := rfl

theorem lookup_filter_ne (l : List (String × String)) (k d : String) (h : k ≠ d) :
    (l.filter (fun kv => kv.1 != d)).lookup k = l.lookup k := by
  induction l with
  | nil => rfl
  | cons kv tl ih =>
    rcases kv with ⟨k1, v1⟩
    by_cases h1 : k1 = d
    · subst h1
      have hk : (k == k1) = false := by simp [h]
      simp [List.filter_cons, List.lookup, hk, ih]
    · by_cases h2 : (k == k1) = true
      · simp [List.filter_cons, h1, List.lookup, h2]
      · simp [List.filter_cons, h1, List.lookup, h2, ih]

theorem lookup_writeFile (fs : FS) (p c k : String) :
    (writeFile fs p c).files.lookup k =
      if k = p then some c else fs.files.lookup k := by
  unfold writeFile
  by_cases h : k = p
  · subst h
    simp [List.lookup]
  · have hk : (k == p) = false := by simp [h]
    simp only [List.lookup, hk, h, if_false, Bool.false_eq_true]
    exact lookup_filter_ne fs.files k p h

/-! ### Claim theorems -/

/-- C1.  `validate_args` raises `FileNotFoundError` if and only if the path
given by `--config` does not name an existing file; when the config path
names an existing file, no `FileNotFoundError` is raised. -/
theorem validate_args_fileNotFound_iff (fs : FS) (env : Env) (args : Args) :
    raisesFileNotFound (validate_args fs env args) = true ↔
      isfile fs args.config = false := by
  cases hfile : isfile fs args.config with
  | false => simp [validate_args, hfile, raisesFileNotFound]
  | true =>
    simp only [validate_args, hfile]
    cases args.gpu with
    | none => simp [raisesFileNotFound]
    | some g =>
      by_cases hr : g < 0 ∨ (env.deviceCount : Int) ≤ g
      · simp [hr, raisesFileNotFound]
      · simp [hr, raisesFileNotFound]

/-- A filesystem with no files at all. -/
def emptyFS : FS := { files := [], dirs := [] }

/-- An environment with a single visible CUDA device; the YAML parser is
never reached in the validation counterexamples. -/
def oneGpuEnv : Env := { deviceCount := 1, parseYaml := fun _ => .error "unused" }

/-- Arguments naming a nonexistent config file together with an
out-of-range GPU id. -/
def missingCfgBadGpuArgs : Args :=
  { config := "missing.yaml", exp := "default_exp", gpu := some (-1) }

/-- C1 witness: on a filesystem without the config file,
`validate_args` raises `FileNotFoundError`. -/
theorem validate_args_fileNotFound_iff_witness :
    raisesFileNotFound (validate_args emptyFS oneGpuEnv missingCfgBadGpuArgs) = true :=
  (validate_args_fileNotFound_iff emptyFS oneGpuEnv missingCfgBadGpuArgs).mpr (by decide)

/-- C2 counterexample: with a nonexistent config path and a supplied GPU id
`-1` that is outside `[0, device_count-1]`, `validate_args` does not raise
`ValueError` (it raises `FileNotFoundError` first), refuting the claim's
"if and only if" as stated. -/
theorem validate_args_valueError_iff_cex :
    missingCfgBadGpuArgs.gpu = some (-1) ∧
    ((-1 : Int) < 0 ∨ (oneGpuEnv.deviceCount : Int) ≤ -1) ∧
    raisesValueError (validate_args emptyFS oneGpuEnv missingCfgBadGpuArgs) = false ∧
    raisesFileNotFound (validate_args emptyFS oneGpuEnv missingCfgBadGpuArgs) = true := by
  decide

/-- C2 (amended).  Provided the config path names an existing file,
`validate_args` raises `ValueError` if and only if a GPU id was supplied
and it lies outside `[0, device_count-1]`; and for every supplied id inside
that range it returns without raising. -/
theorem validate_args_valueError_iff (fs : FS) (env : Env) (args : Args)
    (hfile : isfile fs args.config = true) :
    (raisesValueError (validate_args fs env args) = true ↔
      (∃ g, args.gpu = some g ∧ (g < 0 ∨ (env.deviceCount : Int) ≤ g))) ∧
    (∀ g, args.gpu = some g → 0 ≤ g → g < (env.deviceCount : Int) →
      validate_args fs env args = .ok ()) := by
  constructor
  · simp only [validate_args, hfile]
    cases hg : args.gpu with
    | none => simp [raisesValueError]
    | some g =>
      by_cases hr : g < 0 ∨ (env.deviceCount : Int) ≤ g
      · simp [hr, raisesValueError]
      · simp [hr, raisesValueError]
  · intro g hg h0 h1
    simp only [validate_args, hfile, hg]
    have hr : ¬ (g < 0 ∨ (env.deviceCount : Int) ≤ g) := by omega
    simp [hr]

/-- A filesystem holding a config file `conf.yaml`. -/
def okFS : FS := { files := [("conf.yaml", "save_dir: out")], dirs := [] }

/-- Arguments naming the existing config with in-range GPU id 0. -/
def okArgs : Args := { config := "conf.yaml", exp := "default_exp", gpu := some 0 }

/-- C2 witness: with an existing config file and GPU id 0 of 1 device,
`validate_args` returns without raising. -/
theorem validate_args_valueError_iff_witness :
    validate_args okFS oneGpuEnv okArgs = .ok () :=
  (validate_args_valueError_iff okFS oneGpuEnv okArgs (by decide)).2 0 rfl
    (by decide) (by decide)

/-! ### Closed form of a successful `main` run -/

/-- The filesystem after `main`'s bootstrapping: the experiment directory
`os.path.join(config['save_dir'], args.exp)` exists and the config file has
been copied into it as `config.yaml`. -/
def bootstrapFS (fs : FS) (args : Args) (cfg : Config) (content : String) : FS :=
  writeFile (mkdirIfAbsent fs (osPathJoin cfg.save_dir args.exp))
    (osPathJoin cfg.save_dir args.exp ++ "/config.yaml") content

/-- The event trace of a successful `main` run, in program order. -/
def mainTrace (env : Env) (lr : Nat) (args : Args) (cfg : Config) : List Event :=
  (match args.gpu with
   | none => [Event.initProcessGroup "nccl" "tcp://localhost:12355" lr env.deviceCount]
   | some g => [Event.setDevice g]) ++
  [Event.openConfig args.config,
   Event.makedirsEv (osPathJoin cfg.save_dir args.exp),
   Event.copyEv args.config (osPathJoin cfg.save_dir args.exp ++ "/config.yaml"),
   Event.logInfo ("Configuration file loaded from " ++ args.config),
   Event.logInfo ("Experiment directory created at " ++ osPathJoin cfg.save_dir args.exp),
   Event.dataLoaderInit cfg.use_visual cfg.use_deconv args.gpu.isNone,
   Event.modelInit cfg.num_receivers cfg.use_visual] ++
  (if args.gpu.isNone then [Event.ddpWrap [lr]] else []) ++
  [Event.trainerInit (osPathJoin cfg.save_dir args.exp), Event.trainCall] ++
  (if args.gpu.isNone then [Event.destroyProcessGroup] else [])

theorem pyMain_ok (env : Env) (fs : FS) (lr : Nat) (args : Args)
    (content : String) (cfg : Config)
    (hread : fs.files.lookup args.config = some content)
    (hparse : env.parseYaml content = .ok cfg) :
    pyMain env fs lr args =
      .ok (bootstrapFS fs args cfg content, mainTrace env lr args cfg) := by
  have hread1 : (mkdirIfAbsent fs (osPathJoin cfg.save_dir args.exp)).files.lookup
      args.config = some content := by
    rw [mkdirIfAbsent_files]; exact hread
  simp only [pyMain, hread, hparse, makedirs_true_ok, shutilCopy, hread1,
    bootstrapFS, mainTrace]

/-- C3.  After validation succeeds, the entry point takes exactly one of
two code paths: with `--gpu` supplied it calls `main` once with local rank
0 (single-device mode); with `--gpu` omitted it spawns `main` in one
process per device via `mp.spawn`, each process receiving its spawn index
as local rank. -/
theorem entry_point_two_paths (env : Env) (fs : FS) (args : Args)
    (h : validate_args fs env args = .ok ()) :
    (∀ g, args.gpu = some g →
      entry_point env fs args = .singleDevice (pyMain env fs 0 args)) ∧
    (args.gpu = none →
      entry_point env fs args =
        .multiDevice env.deviceCount
          ((List.range env.deviceCount).map (fun i => pyMain env fs i args))) := by
  refine ⟨fun g hg => ?_, fun hg => ?_⟩ <;> simp [entry_point, h, hg]

/-- C3 witness: with an existing config and GPU id 0, the entry point runs
`main(0, args)` once. -/
theorem entry_point_two_paths_witness :
    entry_point oneGpuEnv okFS okArgs = .singleDevice (pyMain oneGpuEnv okFS 0 okArgs) :=
  (entry_point_two_paths oneGpuEnv okFS okArgs rfl).1 0 rfl

/-- C4.  When validation raises, the top-level handler logs the raised
exception and the process exits with status 1. -/
theorem entry_point_validation_failure (env : Env) (fs : FS) (args : Args)
    (e : PyError) (h : validate_args fs env args = .error e) :
    entry_point env fs args = .validationFailed e 1 fs := by
  simp [entry_point, h]

/-- C4 witness: a missing config file is logged and the process exits
with status 1. -/
theorem entry_point_validation_failure_witness :
    entry_point oneGpuEnv emptyFS missingCfgBadGpuArgs =
      .validationFailed
        (.fileNotFoundError ("Configuration file not found: " ++ "missing.yaml"))
        1 emptyFS :=
  entry_point_validation_failure oneGpuEnv emptyFS missingCfgBadGpuArgs _ rfl

/-- C5.  Validation failures are detected before any expensive work: on a
validation error the entry point exits with status 1 with the filesystem
passed through unchanged, and neither the single-device path (which opens,
parses, and copies the config) nor the process-spawning multi-device path
is taken. -/
theorem validation_failure_before_any_work (env : Env) (fs : FS) (args : Args)
    (h : raisesFileNotFound (validate_args fs env args) = true ∨
         raisesValueError (validate_args fs env args) = true) :
    (∃ e, entry_point env fs args = .validationFailed e 1 fs) ∧
    (∀ r, entry_point env fs args ≠ .singleDevice r) ∧
    (∀ n rs, entry_point env fs args ≠ .multiDevice n rs) := by
  obtain ⟨e, he⟩ : ∃ e, validate_args fs env args = .error e := by
    cases hv : validate_args fs env args with
    | error e => exact ⟨e, rfl⟩
    | ok u => rw [hv] at h; simp [raisesFileNotFound, raisesValueError] at h
  refine ⟨⟨e, by simp [entry_point, he]⟩, fun r => ?_, fun n rs => ?_⟩ <;>
    simp [entry_point, he]

/-- C5 witness: on a missing config file the single-device path is not
taken (in particular the config is never opened and nothing is spawned). -/
theorem validation_failure_before_any_work_witness :
    entry_point oneGpuEnv emptyFS missingCfgBadGpuArgs ≠
      .singleDevice (pyMain oneGpuEnv emptyFS 0 missingCfgBadGpuArgs) :=
  (validation_failure_before_any_work oneGpuEnv emptyFS missingCfgBadGpuArgs
    (Or.inl rfl)).2.1 _

/-- C6.  On a run of `main` whose config file exists and parses, `main`
creates the experiment directory `os.path.join(config['save_dir'], exp)`,
copies the config into it as `config.yaml`, and in the event trace both the
directory creation and the copy precede the construction of the data
loader, the model, and the trainer. -/
theorem main_bootstrap_before_collaborators (env : Env) (fs : FS) (lr : Nat)
    (args : Args) (content : String) (cfg : Config)
    (hread : fs.files.lookup args.config = some content)
    (hparse : env.parseYaml content = .ok cfg) :
    pyMain env fs lr args =
      .ok (bootstrapFS fs args cfg content, mainTrace env lr args cfg) ∧
    isdir (bootstrapFS fs args cfg content) (osPathJoin cfg.save_dir args.exp) = true ∧
    (bootstrapFS fs args cfg content).files.lookup
        (osPathJoin cfg.save_dir args.exp ++ "/config.yaml") = some content ∧
    List.Sublist
      [Event.makedirsEv (osPathJoin cfg.save_dir args.exp),
       Event.copyEv args.config (osPathJoin cfg.save_dir args.exp ++ "/config.yaml"),
       Event.dataLoaderInit cfg.use_visual cfg.use_deconv args.gpu.isNone,
       Event.modelInit cfg.num_receivers cfg.use_visual,
       Event.trainerInit (osPathJoin cfg.save_dir args.exp)]
      (mainTrace env lr args cfg) := by
  refine ⟨pyMain_ok env fs lr args content cfg hread hparse, ?_, ?_, ?_⟩
  · exact isdir_mkdirIfAbsent_self fs (osPathJoin cfg.save_dir args.exp)
  · unfold bootstrapFS
    rw [lookup_writeFile]
    simp
  · cases hg : args.gpu with
    | none =>
      simp only [mainTrace, hg, Option.isNone_none, if_true, List.append_assoc,
        List.cons_append, List.nil_append, List.singleton_append]
      exact .cons _ (.cons _ (.cons₂ _ (.cons₂ _ (.cons _ (.cons _ (.cons₂ _
        (.cons₂ _ (.cons _ (.cons₂ _ (List.nil_sublist _))))))))))
    | some g =>
      simp only [mainTrace, hg, Option.isNone_some, if_false, Bool.false_eq_true,
        List.append_assoc, List.cons_append, List.nil_append, List.singleton_append,
        List.append_nil]
      exact .cons _ (.cons _ (.cons₂ _ (.cons₂ _ (.cons _ (.cons _ (.cons₂ _
        (.cons₂ _ (.cons₂ _ (List.nil_sublist _)))))))))

/-- An environment whose YAML parser accepts the contents of `conf.yaml`. -/
def okCfg : Config :=
  { save_dir := "out", use_visual := true, use_deconv := false, num_receivers := 2 }

/-- A single-device environment that successfully parses the config. -/
def okParseEnv : Env := { deviceCount := 1, parseYaml := fun _ => .ok okCfg }

/-- C6 witness: running `main` on the concrete config creates `out/default_exp`
and copies the config there. -/
theorem main_bootstrap_before_collaborators_witness :
    isdir (bootstrapFS okFS okArgs okCfg "save_dir: out")
      (osPathJoin okCfg.save_dir okArgs.exp) = true :=
  (main_bootstrap_before_collaborators okParseEnv okFS 0 okArgs "save_dir: out" okCfg
    rfl rfl).2.1

/-- C7.  In multi-device mode the entry point spawns one process per
visible device (`nprocs = torch.cuda.device_count()`), handing each
process its spawn index as local rank; each successful spawned run first
initializes the process group with rank equal to its spawn index, world
size equal to the device count, and address `tcp://localhost:12355`, and
its last two actions are running the trainer and destroying the process
group. -/
theorem multi_device_topology (env : Env) (fs : FS) (args : Args)
    (hval : validate_args fs env args = .ok ())
    (hgpu : args.gpu = none) :
    entry_point env fs args =
      .multiDevice env.deviceCount
        ((List.range env.deviceCount).map (fun i => pyMain env fs i args)) ∧
    (∀ i r, pyMain env fs i args = .ok r →
      r.2.head? =
        some (.initProcessGroup "nccl" "tcp://localhost:12355" i env.deviceCount) ∧
      ∃ pre, r.2 = pre ++ [Event.trainCall, Event.destroyProcessGroup]) := by
  constructor
  · simp [entry_point, hval, hgpu]
  · intro i r hr
    rcases hlook : fs.files.lookup args.config with _ | content
    · simp only [pyMain, hlook] at hr
      exact absurd hr (by simp)
    · rcases hparse : env.parseYaml content with m | cfg
      · simp only [pyMain, hlook, hparse] at hr
        exact absurd hr (by simp)
      · rw [pyMain_ok env fs i args content cfg hlook hparse] at hr
        injection hr with hr2
        subst hr2
        refine ⟨by simp [mainTrace, hgpu], ?_⟩
        refine ⟨[Event.initProcessGroup "nccl" "tcp://localhost:12355" i env.deviceCount,
          Event.openConfig args.config,
          Event.makedirsEv (osPathJoin cfg.save_dir args.exp),
          Event.copyEv args.config (osPathJoin cfg.save_dir args.exp ++ "/config.yaml"),
          Event.logInfo ("Configuration file loaded from " ++ args.config),
          Event.logInfo ("Experiment directory created at " ++ osPathJoin cfg.save_dir args.exp),
          Event.dataLoaderInit cfg.use_visual cfg.use_deconv true,
          Event.modelInit cfg.num_receivers cfg.use_visual,
          Event.ddpWrap [i],
          Event.trainerInit (osPathJoin cfg.save_dir args.exp)], ?_⟩
        simp [mainTrace, hgpu]

/-- Arguments with `--gpu` omitted. -/
def noGpuArgs : Args := { config := "conf.yaml", exp := "default_exp", gpu := none }

/-- An environment with two visible CUDA devices that parses the config. -/
def twoGpuEnv : Env := { deviceCount := 2, parseYaml := fun _ => .ok okCfg }

/-- C7 witness: with two devices and `--gpu` omitted, `mp.spawn` launches
`main` for spawn indices 0 and 1. -/
theorem multi_device_topology_witness :
    entry_point twoGpuEnv okFS noGpuArgs =
      .multiDevice 2 [pyMain twoGpuEnv okFS 0 noGpuArgs,
                      pyMain twoGpuEnv okFS 1 noGpuArgs] :=
  (multi_device_topology twoGpuEnv okFS noGpuArgs rfl rfl).1

/-- C8.  Validation only ever raises `FileNotFoundError` or `ValueError`
(the two exception types caught at top level); anything logged by the
top-level handler is one of those two; and an exception raised later, such
as a YAML parse failure inside `main`, propagates out unhandled rather
than being caught and converted to an exit. -/
theorem only_validation_errors_caught (env : Env) (fs : FS) (args : Args) :
    (∀ e, validate_args fs env args = .error e →
      raisesFileNotFound (validate_args fs env args) = true ∨
      raisesValueError (validate_args fs env args) = true) ∧
    (∀ e k fs2, entry_point env fs args = .validationFailed e k fs2 →
      (∃ m, e = PyError.fileNotFoundError m) ∨ (∃ m, e = PyError.valueError m)) ∧
    (∀ g content m, args.gpu = some g → validate_args fs env args = .ok () →
      fs.files.lookup args.config = some content →
      env.parseYaml content = .error m →
      entry_point env fs args = .singleDevice (.error (.yamlError m))) := by
  have herr : ∀ e, validate_args fs env args = .error e →
      (∃ m, e = PyError.fileNotFoundError m) ∨ (∃ m, e = PyError.valueError m) := by
    intro e he
    cases hfile : isfile fs args.config with
    | false =>
      simp only [validate_args, hfile] at he
      injection he with h
      exact Or.inl ⟨_, h.symm⟩
    | true =>
      cases hg : args.gpu with
      | none => simp [validate_args, hfile, hg] at he
      | some g =>
        by_cases hr : g < 0 ∨ (env.deviceCount : Int) ≤ g
        · simp only [validate_args, hfile, hg, hr, if_true] at he
          injection he with h
          exact Or.inr ⟨_, h.symm⟩
        · simp [validate_args, hfile, hg, hr] at he
  refine ⟨?_, ?_, ?_⟩
  · intro e he
    rcases herr e he with ⟨m, rfl⟩ | ⟨m, rfl⟩
    · left; rw [he]; rfl
    · right; rw [he]; rfl
  · intro e k fs2 hev
    cases hv : validate_args fs env args with
    | error e1 =>
      simp only [entry_point, hv] at hev
      injection hev with h1 h2 h3
      exact h1 ▸ herr e1 hv
    | ok u =>
      cases u
      cases hg : args.gpu with
      | none => simp [entry_point, hv, hg] at hev
      | some g => simp [entry_point, hv, hg] at hev
  · intro g content m hg hok hlook hparse
    simp [entry_point, hok, hg, pyMain, hlook, hparse]

/-- An environment whose YAML parser rejects every document. -/
def badYamlEnv : Env :=
  { deviceCount := 1, parseYaml := fun _ => .error "mapping values are not allowed here" }

/-- C8 witness: a malformed YAML config propagates as an uncaught error
out of the single-device run instead of being caught at top level. -/
theorem only_validation_errors_caught_witness :
    entry_point badYamlEnv okFS okArgs =
      .singleDevice (.error (.yamlError "mapping values are not allowed here")) :=
  (only_validation_errors_caught badYamlEnv okFS okArgs).2.2 0
    "save_dir: out" "mapping values are not allowed here" rfl rfl rfl rfl

/-- C9.  When `--gpu` is omitted, validation performs no device-range
check: it succeeds for any device count, including zero visible devices,
in which case the entry point proceeds to `mp.spawn` with `nprocs = 0`
(spawning an empty list of processes) rather than exiting with status 1. -/
theorem gpu_omitted_no_device_check (env : Env) (fs : FS) (args : Args)
    (hg : args.gpu = none) (hfile : isfile fs args.config = true) :
    validate_args fs env args = .ok () ∧
    (env.deviceCount = 0 → entry_point env fs args = .multiDevice 0 []) := by
  have hv : validate_args fs env args = .ok () := by
    simp [validate_args, hfile, hg]
  refine ⟨hv, fun h0 => ?_⟩
  simp [entry_point, hv, hg, h0]

/-- An environment with no visible CUDA devices. -/
def zeroGpuEnv : Env := { deviceCount := 0, parseYaml := fun _ => .error "unused" }

/-- C9 witness: with zero devices and `--gpu` omitted, the entry point
spawns zero processes instead of exiting with status 1. -/
theorem gpu_omitted_no_device_check_witness :
    entry_point zeroGpuEnv okFS noGpuArgs = .multiDevice 0 [] :=
  (gpu_omitted_no_device_check zeroGpuEnv okFS noGpuArgs rfl rfl).2 rfl

/-- C10.  Experiment-directory bootstrapping is idempotent: launching twice
with the same config and experiment name succeeds the second time as well
(`os.makedirs` is called with `exist_ok=True`), and the second run silently
overwrites `save_dir/config.yaml` with the config file's contents. -/
theorem bootstrap_idempotent (env : Env) (fs : FS) (args : Args) (g : Int)
    (content : String) (cfg : Config)
    (hg : args.gpu = some g) (h0 : 0 ≤ g) (h1 : g < (env.deviceCount : Int))
    (hread : fs.files.lookup args.config = some content)
    (hparse : env.parseYaml content = .ok cfg) :
    entry_point env fs args =
      .singleDevice (.ok (bootstrapFS fs args cfg content,
        mainTrace env 0 args cfg)) ∧
    entry_point env (bootstrapFS fs args cfg content) args =
      .singleDevice (.ok (bootstrapFS (bootstrapFS fs args cfg content) args cfg content,
        mainTrace env 0 args cfg)) ∧
    (bootstrapFS (bootstrapFS fs args cfg content) args cfg content).files.lookup
      (osPathJoin cfg.save_dir args.exp ++ "/config.yaml") = some content := by
  have hr : ¬ (g < 0 ∨ (env.deviceCount : Int) ≤ g) := by omega
  have hfile : isfile fs args.config = true := by simp [isfile, hread]
  have hv : validate_args fs env args = .ok () := by
    simp [validate_args, hfile, hg, hr]
  have hread1 : (bootstrapFS fs args cfg content).files.lookup args.config =
      some content := by
    unfold bootstrapFS
    rw [lookup_writeFile]
    split
    · rfl
    · rw [mkdirIfAbsent_files]; exact hread
  have hfile1 : isfile (bootstrapFS fs args cfg content) args.config = true := by
    simp [isfile, hread1]
  have hv1 : validate_args (bootstrapFS fs args cfg content) env args = .ok () := by
    simp [validate_args, hfile1, hg, hr]
  refine ⟨?_, ?_, ?_⟩
  · simp [entry_point, hv, hg, pyMain_ok env fs 0 args content cfg hread hparse]
  · simp [entry_point, hv1, hg,
      pyMain_ok env (bootstrapFS fs args cfg content) 0 args content cfg hread1 hparse]
  · rw [show bootstrapFS (bootstrapFS fs args cfg content) args cfg content =
      writeFile (mkdirIfAbsent (bootstrapFS fs args cfg content)
        (osPathJoin cfg.save_dir args.exp))
        (osPathJoin cfg.save_dir args.exp ++ "/config.yaml") content from rfl]
    rw [lookup_writeFile]
    simp

/-- C10 witness: after launching twice on the concrete config,
`out/default_exp/config.yaml` holds the config file's contents. -/
theorem bootstrap_idempotent_witness :
    (bootstrapFS (bootstrapFS okFS okArgs okCfg "save_dir: out") okArgs okCfg
        "save_dir: out").files.lookup
      (osPathJoin okCfg.save_dir okArgs.exp ++ "/config.yaml") =
      some "save_dir: out" :=
  (bootstrap_idempotent okParseEnv okFS okArgs 0 "save_dir: out" okCfg rfl
    (by decide) (by decide) rfl rfl).2.2
